import Mathlib

/-!
Verification development for the carrot-ai chat orchestration engine.

Shallow embedding of the TypeScript sources:
- `src/client.ts` (CarrotAI: chat with retry and fallback, chatStream, the
  Bedrock and Ollama stream normalizers, handleError, usage construction),
- `src/history.ts` (ConversationHistory with role-aware pruning),
- `src/agent.ts` (CarrotAgent.run tool-calling loop, per-call tool execution).

Backend transports (the AWS SDK client and the Ollama HTTP endpoint) are
external collaborators; they are modelled as oracles: for the non-streaming
path a function from model name and attempt index to a result or failure,
and for the streaming path a trace of already-parsed chunks optionally
terminated by a raised error. Exceptions are modelled with `Except`,
JavaScript `undefined` with `Option`, and tool parameter and result values
in their serialized form as `String`.
-/

/-- Message roles, from `MessageRole` in types.ts. -/
inductive MessageRole where
  | user
  | assistant
  | system
  | tool
deriving DecidableEq, Repr

/-- A tool invocation request emitted by the model (`ToolCall` in types.ts).
The opaque structured `parameters` value is modelled in serialized form. -/
structure ToolCall where
  id : String
  name : String
  parameters : String
deriving DecidableEq, Repr

/-- Outcome of one tool execution (`ToolResult` in types.ts). The optional
`isError` boolean is modelled as `Bool`, with `false` standing for the
omitted (falsy) field. -/
structure ToolResult where
  toolCallId : String
  content : String
  isError : Bool
deriving DecidableEq, Repr

/-- Message content: `Message.content` in types.ts is `string | ToolResult[]`. -/
inductive MessageContent where
  | text (s : String)
  | results (rs : List ToolResult)
deriving DecidableEq, Repr

/-- One conversation turn (`Message` in types.ts). -/
structure Message where
  role : MessageRole
  content : MessageContent
  toolCalls : Option (List ToolCall) := none
deriving DecidableEq, Repr

/-- Token accounting (`Usage` in types.ts). -/
structure Usage where
  inputTokens : Nat
  outputTokens : Nat
  totalTokens : Nat
deriving DecidableEq, Repr

/-- Normalized chat response (`ChatResponse` in types.ts). -/
structure ChatResponse where
  content : String
  role : MessageRole
  model : String
  usage : Usage
  toolCalls : Option (List ToolCall) := none
deriving DecidableEq, Repr

/-- The two supported backends (`ProviderType` in types.ts). -/
inductive ProviderType where
  | bedrock
  | ollama
deriving DecidableEq, Repr

/-- The request options used by the orchestration logic (`ChatOptions` in
types.ts). Pure passthrough fields that the orchestrator forwards to the
backend transport unchanged (temperature, maxTokens, topP, stopSequences,
tools, onUsage) are absorbed into the backend oracle and omitted here. -/
structure ChatOptions where
  model : Option String := none
  messages : List Message := []
  retries : Option Nat := none
  fallbackModels : Option (List String) := none
  systemInstruction : Option String := none

/-- Normalized stream event (`StreamEvent` in types.ts). -/
inductive StreamEvent where
  | content (s : String)
  | toolCall (tc : ToolCall)
  | usage (u : Usage)
  | done
deriving DecidableEq, Repr

/-- A failure surfaced by a backend invocation: the HTTP-status-like
classification read by handleError (`error.$metadata?.httpStatusCode ||
error.status`, `none` when absent) together with the error message. -/
structure BackendFailure where
  status : Option Nat
  message : String
deriving DecidableEq, Repr

/-- The exception thrown out of one attempt of the pRetry task in
CarrotAI.chat (client.ts lines 55-65): either a CarrotAuthError or
CarrotRateLimitError raised by handleError, a pRetry AbortError wrapping
the original failure, or the original failure rethrown. -/
inductive TaskError where
  | auth (msg : String)
  | rateLimit (msg : String)
  | abort (e : BackendFailure)
  | raw (e : BackendFailure)
deriving DecidableEq, Repr

/-- The error that chat finally surfaces to its caller. pRetry unwraps an
AbortError and throws the original failure, so aborts and transient
exhaustion both surface the underlying BackendFailure. -/
inductive ChatErr where
  | auth (msg : String)
  | rateLimit (msg : String)
  | original (e : BackendFailure)
deriving DecidableEq, Repr

/-- How a TaskError appears to the caller once pRetry stops retrying:
AbortError is unwrapped to its original error, other errors are rethrown
as they are. -/
def taskErrToChat : TaskError → ChatErr
  | .auth msg => .auth msg
  | .rateLimit msg => .rateLimit msg
  | .abort e => .original e
  | .raw e => .original e

/-- Default Bedrock model of CarrotAI (client.ts line 33). -/
def CarrotAI.defaultBedrockModel : String := "meta.llama3-70b-instruct-v1:0"

/-- Default Ollama model of CarrotAI (client.ts line 34). -/
def CarrotAI.defaultOllamaModel : String := "llama3"

/-- Per-provider default model used when the request does not set one. -/
def CarrotAI.defaultModelFor : ProviderType → String
  | .bedrock => CarrotAI.defaultBedrockModel
  | .ollama => CarrotAI.defaultOllamaModel

/-- CarrotAI.handleError (client.ts lines 380-392), as a total
classification of the caught failure into the exception it raises; the
fall-through case (handleError returns, and the catch block rethrows the
original error) is `raw`. -/
def CarrotAI.handleError (e : BackendFailure) : TaskError :=
  match e.status with
  | some 401 => .auth e.message
  | some 403 => .auth e.message
  | some 429 => .rateLimit e.message
  | some s => if 400 ≤ s ∧ s < 500 then .abort e else .raw e
  | none => .raw e

/-- One attempt of the pRetry task body (client.ts lines 55-65): invoke the
backend for the given model and attempt index; on failure, raise what
handleError classifies. -/
def CarrotAI.attemptTask (backend : String → Nat → Except BackendFailure ChatResponse)
    (model : String) (i : Nat) : Except TaskError ChatResponse :=
  match backend model i with
  | .ok r => .ok r
  | .error e => .error (CarrotAI.handleError e)

/-- The pRetry loop with `retries` attempts remaining after the current one,
starting at 1-based attempt index `i`. Returns the outcome together with
the number of attempts made. An AbortError stops immediately and surfaces
the wrapped original error; any other error is retried until the budget is
exhausted, and the last attempt's error is thrown. -/
def CarrotAI.pRetryLoop (task : Nat → Except TaskError ChatResponse) :
    Nat → Nat → Except ChatErr ChatResponse × Nat
  | left, i =>
    match task i with
    | .ok r => (.ok r, 1)
    | .error (.abort e) => (.error (.original e), 1)
    | .error te =>
      match left with
      | 0 => (.error (taskErrToChat te), 1)
      | l + 1 =>
        let p := CarrotAI.pRetryLoop task l (i + 1)
        (p.1, p.2 + 1)

/-- runWithRetry in CarrotAI.chat (client.ts lines 53-74): wrap the backend
invocation for one model in pRetry with the configured retry budget. -/
def CarrotAI.runWithRetry (backend : String → Nat → Except BackendFailure ChatResponse)
    (retries : Nat) (currentModel : String) : Except ChatErr ChatResponse × Nat :=
  CarrotAI.pRetryLoop (CarrotAI.attemptTask backend currentModel) retries 1

/-- The fallback loop of CarrotAI.chat (client.ts lines 79-87): try each
fallback model with its own retry budget, return the first success, and
when all fail rethrow the primary error. Also returns the per-model
attempt counts. -/
def CarrotAI.tryFallbacks (backend : String → Nat → Except BackendFailure ChatResponse)
    (retries : Nat) (primErr : ChatErr) :
    List String → Except ChatErr ChatResponse × List (String × Nat)
  | [] => (.error primErr, [])
  | fb :: rest =>
    let r := CarrotAI.runWithRetry backend retries fb
    match r.1 with
    | .ok resp => (.ok resp, [(fb, r.2)])
    | .error _ =>
      let t := CarrotAI.tryFallbacks backend retries primErr rest
      (t.1, (fb, r.2) :: t.2)

/-- CarrotAI.chat after option resolution (client.ts lines 46-90): retry the
primary model, then each fallback in order, and if everything fails throw
the primary error. The second component records, in order, each model that
was invoked together with how many invocation attempts it received. -/
def CarrotAI.chatCore (backend : String → Nat → Except BackendFailure ChatResponse)
    (model : String) (retries : Nat) (fallbackModels : List String) :
    Except ChatErr ChatResponse × List (String × Nat) :=
  let prim := CarrotAI.runWithRetry backend retries model
  match prim.1 with
  | .ok r => (.ok r, [(model, prim.2)])
  | .error e =>
    let t := CarrotAI.tryFallbacks backend retries e fallbackModels
    (t.1, (model, prim.2) :: t.2)

/-- CarrotAI.chat (client.ts lines 46-90) including the destructuring
defaults: model defaults to the provider default, retries to 3,
fallbackModels to []. -/
def CarrotAI.chat (provider : ProviderType)
    (backend : String → Nat → Except BackendFailure ChatResponse)
    (options : ChatOptions) : Except ChatErr ChatResponse × List (String × Nat) :=
  CarrotAI.chatCore backend
    (options.model.getD (CarrotAI.defaultModelFor provider))
    (options.retries.getD 3)
    (options.fallbackModels.getD [])

/-- The Usage built by invokeOllama (client.ts lines 240-244) and by the
terminal chunk of invokeOllamaStream (lines 302-306) from the optional
prompt_eval_count and eval_count fields of the Ollama payload. -/
def CarrotAI.mkOllamaUsage (promptEvalCount evalCount : Option Nat) : Usage :=
  { inputTokens := promptEvalCount.getD 0
    outputTokens := evalCount.getD 0
    totalTokens := promptEvalCount.getD 0 + evalCount.getD 0 }

/-- The usage block of a Bedrock response or stream-metadata chunk, each
field possibly absent. -/
structure BedrockUsagePayload where
  inputTokens : Option Nat
  outputTokens : Option Nat
  totalTokens : Option Nat
deriving DecidableEq, Repr

/-- The Usage built by invokeBedrock (client.ts lines 131-135) and by
invokeBedrockStream (lines 188-193): every field, including totalTokens,
is copied from the backend-reported usage block with absent fields
defaulting to 0. -/
def CarrotAI.mkBedrockUsage (u : Option BedrockUsagePayload) : Usage :=
  { inputTokens := (u.bind BedrockUsagePayload.inputTokens).getD 0
    outputTokens := (u.bind BedrockUsagePayload.outputTokens).getD 0
    totalTokens := (u.bind BedrockUsagePayload.totalTokens).getD 0 }

/-- One parsed JSON line of the Ollama streaming response body: the
optional `message.content` text, the terminal `done` flag, and the token
counters present on the terminal line. -/
structure OllamaLine where
  content : Option String
  done : Bool
  promptEvalCount : Option Nat
  evalCount : Option Nat
deriving DecidableEq, Repr

/-- The events invokeOllamaStream emits for one parsed line (client.ts
lines 297-309): a content event when `message.content` is truthy (present
and non-empty), then a usage event when the line carries the `done` flag. -/
def CarrotAI.ollamaLineEvents (l : OllamaLine) : List StreamEvent :=
  (match l.content with
   | some c => if c = "" then [] else [.content c]
   | none => []) ++
  (if l.done then [.usage (CarrotAI.mkOllamaUsage l.promptEvalCount l.evalCount)] else [])

/-- The observable behavior of one Ollama streaming invocation: whether the
HTTP response was ok (with a body), its statusText, the lines successfully
read and parsed, and an error raised while reading or parsing after those
lines (`none` when the stream completed cleanly). -/
structure OllamaStreamInput where
  ok : Bool
  statusText : String
  lines : List OllamaLine
  midError : Option String
deriving DecidableEq, Repr

/-- CarrotAI.invokeOllamaStream (client.ts lines 256-313) as a function
from the backend trace to the emitted event sequence paired with the error
that escaped the generator, if any. A failed request raises before any
event; a mid-stream error stops emission with no done event; a clean
completion appends the single done event. -/
def CarrotAI.invokeOllamaStreamModel (inp : OllamaStreamInput) :
    List StreamEvent × Option String :=
  if inp.ok = false then
    ([], some ("Ollama stream failed: " ++ inp.statusText))
  else
    let evs := (inp.lines.map CarrotAI.ollamaLineEvents).flatten
    match inp.midError with
    | some e => (evs, some e)
    | none => (evs ++ [StreamEvent.done], none)

/-- One chunk of the Bedrock ConverseStream response: the optional
contentBlockDelta text and the optional metadata usage block. The
contentBlockStart toolUse branch of the source is a no-op and emits
nothing. -/
structure BedrockChunk where
  deltaText : Option String
  metadataUsage : Option BedrockUsagePayload
deriving DecidableEq, Repr

/-- The events invokeBedrockStream emits for one chunk (client.ts lines
184-202): a content event when the delta text is truthy, then a usage
event when the chunk carries a metadata usage block. -/
def CarrotAI.bedrockChunkEvents (c : BedrockChunk) : List StreamEvent :=
  (match c.deltaText with
   | some t => if t = "" then [] else [.content t]
   | none => []) ++
  (match c.metadataUsage with
   | some u => [.usage (CarrotAI.mkBedrockUsage (some u))]
   | none => [])

/-- The observable behavior of one Bedrock streaming invocation: the two
pre-loop failure modes (client not initialized, response without a
stream), the chunks delivered, and an error raised mid-stream after those
chunks. -/
structure BedrockStreamInput where
  clientInitialized : Bool
  streamPresent : Bool
  chunks : List BedrockChunk
  midError : Option String
deriving DecidableEq, Repr

/-- CarrotAI.invokeBedrockStream (client.ts lines 157-204) as a function
from the backend trace to the emitted events paired with the escaping
error, if any. -/
def CarrotAI.invokeBedrockStreamModel (inp : BedrockStreamInput) :
    List StreamEvent × Option String :=
  if inp.clientInitialized = false then
    ([], some "Bedrock client not initialized")
  else if inp.streamPresent = false then
    ([], some "No stream in Bedrock response")
  else
    let evs := (inp.chunks.map CarrotAI.bedrockChunkEvents).flatten
    match inp.midError with
    | some e => (evs, some e)
    | none => (evs ++ [StreamEvent.done], none)

/-- Model resolution in chatStream (client.ts line 93): `options.model ||
default` under JavaScript truthiness, so an empty string also falls back
to the provider default. -/
def CarrotAI.resolveStreamModel (provider : ProviderType) (m : Option String) : String :=
  match m with
  | some s => if s = "" then CarrotAI.defaultModelFor provider else s
  | none => CarrotAI.defaultModelFor provider

/-- CarrotAI.chatStream (client.ts lines 92-100): resolve the model, then
delegate to the single streaming invocation of the configured provider.
The backend oracles give, per model and per invocation index, the trace
that invocation would observe; the source performs exactly one invocation,
at index 0, and applies no retry and no fallback. -/
def CarrotAI.chatStream (provider : ProviderType) (options : ChatOptions)
    (bedrockCalls : String → Nat → BedrockStreamInput)
    (ollamaCalls : String → Nat → OllamaStreamInput) :
    List StreamEvent × Option String :=
  let model := CarrotAI.resolveStreamModel provider options.model
  match provider with
  | .bedrock => CarrotAI.invokeBedrockStreamModel (bedrockCalls model 0)
  | .ollama => CarrotAI.invokeOllamaStreamModel (ollamaCalls model 0)

/-- Whether a stream event is the done event. -/
def isDoneEvent : StreamEvent → Bool
  | .done => true
  | _ => false

/-- Number of done events in an event sequence. -/
def doneCount (evs : List StreamEvent) : Nat :=
  (evs.filter isDoneEvent).length

/-- JavaScript `Array.prototype.slice(-k)` on a list: the last `k` elements
when `k` is positive, and the whole array when `k` is 0 (since `-0` is
`0`). -/
def sliceLast (k : Nat) (xs : List Message) : List Message :=
  if k = 0 then xs else xs.drop (xs.length - k)

/-- The state of a ConversationHistory instance (history.ts): the stored
messages and the resolved maxMessages cap. -/
structure ConversationHistory where
  messages : List Message
  maxMessages : Nat
deriving DecidableEq, Repr

/-- The ConversationHistory constructor (history.ts lines 405-407):
`this.maxMessages = options.maxMessages || 100`, so both an absent option
and the falsy value 0 resolve to the default cap 100. -/
def ConversationHistory.create (maxMessages : Option Nat) : ConversationHistory :=
  { messages := []
    maxMessages :=
      match maxMessages with
      | none => 100
      | some n => if n = 0 then 100 else n }

/-- The predicate of the system-message filter in prune (history.ts line
425). -/
def isSystemMessage (m : Message) : Bool :=
  m.role == MessageRole.system

/-- ConversationHistory.prune (history.ts lines 422-435): when the store
exceeds the cap, keep all system messages followed by the most recent
`maxMessages - systemCount` non-system messages; when system messages
alone reach the cap, keep only `slice(-maxMessages)` of them. -/
def ConversationHistory.prune (h : ConversationHistory) : ConversationHistory :=
  if h.maxMessages < h.messages.length then
    let systemMessages := h.messages.filter isSystemMessage
    let otherMessages := h.messages.filter (fun m => !isSystemMessage m)
    if systemMessages.length < h.maxMessages then
      { h with messages :=
          systemMessages ++ sliceLast (h.maxMessages - systemMessages.length) otherMessages }
    else
      { h with messages := sliceLast h.maxMessages systemMessages }
  else h

/-- ConversationHistory.addMessage (history.ts lines 409-412): push then
prune. -/
def ConversationHistory.addMessage (h : ConversationHistory) (m : Message) :
    ConversationHistory :=
  ConversationHistory.prune { h with messages := h.messages ++ [m] }

/-- ConversationHistory.getMessages (history.ts lines 414-416). -/
def ConversationHistory.getMessages (h : ConversationHistory) : List Message :=
  h.messages

/-- ConversationHistory.clear (history.ts lines 418-420). -/
def ConversationHistory.clear (h : ConversationHistory) : ConversationHistory :=
  { h with messages := [] }

/-- A registered tool (`ToolDefinition` in types.ts). `validateParams` is
the Zod `parameters.parse` step (a ZodError is an `error` value carrying
the joined issue messages) and `execute` is the tool body (a raised
exception is an `error` value carrying its message). Values are modelled
in serialized form. -/
structure ToolDefinition where
  name : String
  description : String
  validateParams : String → Except String String
  execute : String → Except String String

/-- The body of the per-call executor for a tool found in the registry
(agent.ts lines 67-88): validate, then execute, converting a validation
failure or an execution failure into an error-flagged ToolResult. -/
def CarrotAgent.runTool (t : ToolDefinition) (tc : ToolCall) : ToolResult :=
  match t.validateParams tc.parameters with
  | .error msg =>
    { toolCallId := tc.id, content := "Validation Error: " ++ msg, isError := true }
  | .ok p =>
    match t.execute p with
    | .error msg => { toolCallId := tc.id, content := msg, isError := true }
    | .ok v => { toolCallId := tc.id, content := v, isError := false }

/-- One tool call processed inside CarrotAgent.run (agent.ts lines 57-89):
an unregistered name yields an error ToolResult without invoking anything,
otherwise the found tool is validated and executed. -/
def CarrotAgent.executeToolCall (tools : List ToolDefinition) (tc : ToolCall) : ToolResult :=
  match tools.find? (fun t => t.name == tc.name) with
  | none =>
    { toolCallId := tc.id
      content := "Error: Tool \"" ++ tc.name ++ "\" not found."
      isError := true }
  | some t => CarrotAgent.runTool t tc

/-- Negation of the loop-exit test of CarrotAgent.run (agent.ts line 51):
`!response.toolCalls || response.toolCalls.length === 0` exits the loop;
this holds when the response carries at least one tool call. -/
def hasToolCalls (tcs : Option (List ToolCall)) : Bool :=
  match tcs with
  | none => false
  | some l => !l.isEmpty

/-- The while loop of CarrotAgent.run (agent.ts lines 37-99), with `fuel =
maxIterations - iterations` remaining turns. `chatFn` abstracts the
`this.ai.chat` call on the current memory contents (with the agent's fixed
system prompt and tool list closed over). Returns the final string
together with the number of chat invocations made. -/
def CarrotAgent.runLoop (chatFn : List Message → ChatResponse)
    (tools : List ToolDefinition) :
    Nat → ConversationHistory → String × Nat
  | 0, _ => ("Max iterations reached.", 0)
  | fuel + 1, mem =>
    let response := chatFn mem.messages
    let mem1 := mem.addMessage
      { role := .assistant, content := .text response.content, toolCalls := response.toolCalls }
    if hasToolCalls response.toolCalls = false then
      (response.content, 1)
    else
      let results := (response.toolCalls.getD []).map (CarrotAgent.executeToolCall tools)
      let mem2 := mem1.addMessage { role := .user, content := .results results, toolCalls := none }
      let r := CarrotAgent.runLoop chatFn tools fuel mem2
      (r.1, r.2 + 1)

/-- CarrotAgent.run (agent.ts lines 31-102): append the user prompt to
memory, then run the loop with the fixed iteration cap 10. -/
def CarrotAgent.run (chatFn : List Message → ChatResponse)
    (tools : List ToolDefinition) (memory : ConversationHistory)
    (prompt : String) : String × Nat :=
  CarrotAgent.runLoop chatFn tools 10
    (memory.addMessage { role := .user, content := .text prompt, toolCalls := none })

/-! Helper lemmas (shared; not tied to a single claim). -/

/-- One-step unfolding of the pRetry loop. -/
theorem CarrotAI.pRetryLoop_eq (task : Nat → Except TaskError ChatResponse) (left i : Nat) :
    CarrotAI.pRetryLoop task left i =
      match task i with
      | .ok r => (.ok r, 1)
      | .error (.abort e) => (.error (.original e), 1)
      | .error te =>
        match left with
        | 0 => (.error (taskErrToChat te), 1)
        | l + 1 =>
          let p := CarrotAI.pRetryLoop task l (i + 1)
          (p.1, p.2 + 1) := by
  rw [CarrotAI.pRetryLoop]

/-- Done events distribute over appended event sequences. -/
theorem doneCount_append (a b : List StreamEvent) :
    doneCount (a ++ b) = doneCount a + doneCount b := by
  simp [doneCount, List.filter_append]

/-- A single Ollama line never contributes a done event. -/
theorem doneCount_ollamaLineEvents (l : OllamaLine) :
    doneCount (CarrotAI.ollamaLineEvents l) = 0 := by
  rcases l with ⟨c, d, p, e⟩
  rcases c with _ | s
  · cases d <;> simp [CarrotAI.ollamaLineEvents, doneCount, isDoneEvent]
  · cases d <;> by_cases hs : s = "" <;>
      simp [CarrotAI.ollamaLineEvents, doneCount, isDoneEvent, hs]

/-- The per-line events of an Ollama body contain no done event. -/
theorem doneCount_ollama_flatten (lines : List OllamaLine) :
    doneCount ((lines.map CarrotAI.ollamaLineEvents).flatten) = 0 := by
  induction lines with
  | nil => simp [doneCount]
  | cons l t ih => simp [doneCount_append, doneCount_ollamaLineEvents, ih]

/-- A single Bedrock chunk never contributes a done event. -/
theorem doneCount_bedrockChunkEvents (c : BedrockChunk) :
    doneCount (CarrotAI.bedrockChunkEvents c) = 0 := by
  rcases c with ⟨t, u⟩
  rcases t with _ | s
  · cases u <;> simp [CarrotAI.bedrockChunkEvents, doneCount, isDoneEvent]
  · cases u <;> by_cases hs : s = "" <;>
      simp [CarrotAI.bedrockChunkEvents, doneCount, isDoneEvent, hs]

/-- The per-chunk events of a Bedrock stream contain no done event. -/
theorem doneCount_bedrock_flatten (chunks : List BedrockChunk) :
    doneCount ((chunks.map CarrotAI.bedrockChunkEvents).flatten) = 0 := by
  induction chunks with
  | nil => simp [doneCount]
  | cons c t ih => simp [doneCount_append, doneCount_bedrockChunkEvents, ih]

/-- Every pRetry run makes at least one attempt. -/
theorem pRetryLoop_attempts_pos (task : Nat → Except TaskError ChatResponse)
    (left i : Nat) : 1 ≤ (CarrotAI.pRetryLoop task left i).2 := by
  rw [CarrotAI.pRetryLoop_eq]
  cases h : task i with
  | ok r => simp
  | error te => cases te <;> cases left <;> simp

/-- When pRetry fails, the surfaced error is derived from the task error of
the last attempt actually made (attempt index `i + attempts - 1`). -/
theorem pRetryLoop_error_last (task : Nat → Except TaskError ChatResponse) :
    ∀ (left i : Nat) (e : ChatErr), (CarrotAI.pRetryLoop task left i).1 = .error e →
      ∃ te, task (i + (CarrotAI.pRetryLoop task left i).2 - 1) = .error te
        ∧ e = taskErrToChat te := by
  intro left
  induction left with
  | zero =>
    intro i e he
    rw [CarrotAI.pRetryLoop_eq] at he ⊢
    cases h : task i with
    | ok r => simp [h] at he
    | error te =>
      simp only [h] at he ⊢
      cases te <;> simp_all [taskErrToChat]
  | succ l ih =>
    intro i e he
    rw [CarrotAI.pRetryLoop_eq] at he ⊢
    cases h : task i with
    | ok r => simp [h] at he
    | error te =>
      simp only [h] at he ⊢
      cases te with
      | abort f =>
        simp_all [taskErrToChat]
        try exact ⟨_, h, rfl⟩
      | auth msg =>
        simp only [] at he ⊢
        obtain ⟨te1, hte, heq⟩ := ih (i + 1) e (by simpa using he)
        refine ⟨te1, ?_, heq⟩
        have hidx : i + ((CarrotAI.pRetryLoop task l (i + 1)).2 + 1) - 1
            = i + 1 + (CarrotAI.pRetryLoop task l (i + 1)).2 - 1 := by omega
        simpa [hidx] using hte
      | rateLimit msg =>
        simp only [] at he ⊢
        obtain ⟨te1, hte, heq⟩ := ih (i + 1) e (by simpa using he)
        refine ⟨te1, ?_, heq⟩
        have hidx : i + ((CarrotAI.pRetryLoop task l (i + 1)).2 + 1) - 1
            = i + 1 + (CarrotAI.pRetryLoop task l (i + 1)).2 - 1 := by omega
        simpa [hidx] using hte
      | raw f =>
        simp only [] at he ⊢
        obtain ⟨te1, hte, heq⟩ := ih (i + 1) e (by simpa using he)
        refine ⟨te1, ?_, heq⟩
        have hidx : i + ((CarrotAI.pRetryLoop task l (i + 1)).2 + 1) - 1
            = i + 1 + (CarrotAI.pRetryLoop task l (i + 1)).2 - 1 := by omega
        simpa [hidx] using hte

/-- Against a task that fails with a rethrown (transient) error on every
attempt, pRetry makes exactly `left + 1` attempts and throws the error of
the last one. -/
theorem pRetryLoop_transient (task : Nat → Except TaskError ChatResponse)
    (fail : Nat → BackendFailure) (h : ∀ j, task j = .error (.raw (fail j))) :
    ∀ (left i : Nat),
      CarrotAI.pRetryLoop task left i = (.error (.original (fail (i + left))), left + 1) := by
  intro left
  induction left with
  | zero =>
    intro i
    rw [CarrotAI.pRetryLoop_eq]
    simp [h i, taskErrToChat]
  | succ l ih =>
    intro i
    rw [CarrotAI.pRetryLoop_eq]
    simp only [h i]
    have hidx : i + 1 + l = i + (l + 1) := by omega
    simp [ih (i + 1), hidx]

/-- When every fallback model fails, the fallback loop rethrows the primary
error and logs each fallback, in order, with its own attempt count. -/
theorem tryFallbacks_all_fail
    (backend : String → Nat → Except BackendFailure ChatResponse)
    (r : Nat) (primErr : ChatErr) :
    ∀ fbs : List String,
      (∀ fb ∈ fbs, ∃ e2, (CarrotAI.runWithRetry backend r fb).1 = .error e2) →
      CarrotAI.tryFallbacks backend r primErr fbs
        = (.error primErr, fbs.map (fun fb => (fb, (CarrotAI.runWithRetry backend r fb).2))) := by
  intro fbs
  induction fbs with
  | nil => intro _; simp [CarrotAI.tryFallbacks]
  | cons fb rest ih =>
    intro h
    obtain ⟨e2, he2⟩ := h fb (List.mem_cons_self fb rest)
    have hrest := ih (fun x hx => h x (List.mem_cons_of_mem fb hx))
    simp [CarrotAI.tryFallbacks, he2, hrest]

/-- Claim C1. The claim asserts that a backend failure with HTTP status 401
or 403 results in exactly one invocation attempt, with CarrotAuthError
surfaced before any retry decision. The code instead retries the
CarrotAuthError thrown by handleError (it is not a pRetry AbortError, so
pRetry does not abort): with the default retry budget of 3, a backend that
fails every attempt with 403 receives 4 invocation attempts, and the
CarrotAuthError reaches the caller only after the budget is exhausted. -/
theorem C1_auth_error_is_retried :
    CarrotAI.chat .bedrock (fun _ _ => .error { status := some 403, message := "forbidden" })
        { messages := [] }
      = (.error (.auth "forbidden"), [(CarrotAI.defaultBedrockModel, 4)]) := rfl

/-- Claim C2: when the primary model's attempts fail and every configured
fallback model also fails, chat throws the primary model's error — and
that error is derived from the failure observed on the primary model's
last attempt — never a fallback model's error. -/
theorem C2_primary_error_surfaced
    (backend : String → Nat → Except BackendFailure ChatResponse)
    (model : String) (r : Nat) (fbs : List String) (e : ChatErr)
    (hprim : (CarrotAI.runWithRetry backend r model).1 = .error e)
    (hfb : ∀ fb ∈ fbs, ∃ e2, (CarrotAI.runWithRetry backend r fb).1 = .error e2) :
    (CarrotAI.chatCore backend model r fbs).1 = .error e
    ∧ ∃ te, CarrotAI.attemptTask backend model (CarrotAI.runWithRetry backend r model).2
          = .error te ∧ e = taskErrToChat te := by
  constructor
  · simp only [CarrotAI.chatCore, hprim]
    rw [tryFallbacks_all_fail backend r e fbs hfb]
  · have hlast := pRetryLoop_error_last (CarrotAI.attemptTask backend model) r 1 e hprim
    have hpos := pRetryLoop_attempts_pos (CarrotAI.attemptTask backend model) r 1
    obtain ⟨te, hte, heq⟩ := hlast
    refine ⟨te, ?_, heq⟩
    have hidx : 1 + (CarrotAI.pRetryLoop (CarrotAI.attemptTask backend model) r 1).2 - 1
        = (CarrotAI.pRetryLoop (CarrotAI.attemptTask backend model) r 1).2 := by omega
    rw [hidx] at hte
    exact hte

/-- Witness for C2 at a concrete always-failing transient backend with one
fallback model. -/
theorem C2_witness :
    (CarrotAI.chatCore (fun _ _ => .error { status := some 500, message := "boom" })
        "m" 0 ["f"]).1 = .error (.original { status := some 500, message := "boom" })
    ∧ ∃ te, CarrotAI.attemptTask (fun _ _ => .error { status := some 500, message := "boom" })
          "m" (CarrotAI.runWithRetry
                (fun _ _ => .error { status := some 500, message := "boom" }) 0 "m").2
        = .error te
        ∧ ChatErr.original { status := some 500, message := "boom" } = taskErrToChat te :=
  C2_primary_error_surfaced (fun _ _ => .error { status := some 500, message := "boom" })
    "m" 0 ["f"] (.original { status := some 500, message := "boom" })
    rfl (fun _ _ => ⟨.original { status := some 500, message := "boom" }, rfl⟩)

/-- Claim C3: with retries = r against a backend whose every invocation
fails with a transient (retried, rethrown-as-is) error, the primary model
receives exactly r + 1 invocation attempts, and then each configured
fallback model, in the order given, receives its own independent budget of
exactly r + 1 attempts. -/
theorem C3_retry_and_fallback_budgets
    (backend : String → Nat → Except BackendFailure ChatResponse)
    (fail : String → Nat → BackendFailure)
    (hfail : ∀ m j, backend m j = .error (fail m j))
    (htrans : ∀ m j, CarrotAI.handleError (fail m j) = .raw (fail m j))
    (model : String) (r : Nat) (fbs : List String) :
    (CarrotAI.chatCore backend model r fbs).2
      = (model, r + 1) :: fbs.map (fun fb => (fb, r + 1)) := by
  have htask : ∀ m j, CarrotAI.attemptTask backend m j = .error (.raw (fail m j)) := by
    intro m j
    simp [CarrotAI.attemptTask, hfail m j, htrans m j]
  have hrun : ∀ m, CarrotAI.runWithRetry backend r m
      = (.error (.original (fail m (1 + r))), r + 1) := by
    intro m
    exact pRetryLoop_transient (CarrotAI.attemptTask backend m) (fail m) (htask m) r 1
  have hfb : ∀ fb ∈ fbs, ∃ e2, (CarrotAI.runWithRetry backend r fb).1 = .error e2 := by
    intro fb _
    exact ⟨.original (fail fb (1 + r)), by rw [hrun fb]⟩
  simp only [CarrotAI.chatCore, hrun model]
  rw [tryFallbacks_all_fail backend r (.original (fail model (1 + r))) fbs hfb]
  simp [hrun]

/-- Witness for C3 at a concrete always-failing 500 backend, retries = 1,
two fallback models. -/
theorem C3_witness :
    (CarrotAI.chatCore (fun _ _ => .error { status := some 500, message := "boom" })
        "m" 1 ["a", "b"]).2 = [("m", 2), ("a", 2), ("b", 2)] :=
  C3_retry_and_fallback_budgets
    (fun _ _ => .error { status := some 500, message := "boom" })
    (fun _ _ => { status := some 500, message := "boom" })
    (fun _ _ => rfl) (fun _ _ => rfl) "m" 1 ["a", "b"]

/-- Claim C5: with maxMessages = 3, appending system, user, assistant, user
yields exactly [system, assistant, second user] — the oldest non-system
message is dropped and the system message is retained at the front. -/
theorem C5_prune_scenario :
    (((((ConversationHistory.create (some 3)).addMessage
          { role := .system, content := .text "s" }).addMessage
          { role := .user, content := .text "u1" }).addMessage
          { role := .assistant, content := .text "a" }).addMessage
          { role := .user, content := .text "u2" }).messages
      = [{ role := .system, content := .text "s" },
         { role := .assistant, content := .text "a" },
         { role := .user, content := .text "u2" }] := rfl

/-- Counterexample for claim C4 as stated: a ConversationHistory constructed
with maxMessages = 0 does not keep its list within length 0, because the
constructor's `options.maxMessages || 100` treats 0 as falsy and installs
the default cap 100. -/
theorem C4_counterexample :
    ¬ (((ConversationHistory.create (some 0)).addMessage
          { role := .user, content := .text "hi" }).messages.length ≤ 0) := by
  decide

/-- Counterexample for claim C9 as stated: invokeBedrock and
invokeBedrockStream copy totalTokens from the backend-reported usage block
instead of computing it, so a Bedrock usage payload reporting only
totalTokens = 7 produces a Usage with totalTokens 7 but inputTokens and
outputTokens 0. -/
theorem C9_counterexample :
    ¬ ((CarrotAI.mkBedrockUsage
          (some { inputTokens := none, outputTokens := none, totalTokens := some 7 })).totalTokens
        = (CarrotAI.mkBedrockUsage
            (some { inputTokens := none, outputTokens := none, totalTokens := some 7 })).inputTokens
          + (CarrotAI.mkBedrockUsage
              (some { inputTokens := none, outputTokens := none, totalTokens := some 7 })).outputTokens) := by
  decide

/-- Claim C9, amended: every Usage produced by an Ollama invocation (chat or
stream) satisfies totalTokens = inputTokens + outputTokens; a Usage
produced by a Bedrock invocation copies the backend-reported fields
(absent ones defaulting to 0) and satisfies the equation whenever the
backend reports all three fields consistently. -/
theorem C9_usage_accounting :
    (∀ p e : Option Nat,
       (CarrotAI.mkOllamaUsage p e).totalTokens
         = (CarrotAI.mkOllamaUsage p e).inputTokens + (CarrotAI.mkOllamaUsage p e).outputTokens)
    ∧ (∀ (u : BedrockUsagePayload) (a b : Nat),
         u.inputTokens = some a → u.outputTokens = some b → u.totalTokens = some (a + b) →
         (CarrotAI.mkBedrockUsage (some u)).totalTokens
           = (CarrotAI.mkBedrockUsage (some u)).inputTokens
             + (CarrotAI.mkBedrockUsage (some u)).outputTokens) := by
  constructor
  · intro p e
    rfl
  · intro u a b h1 h2 h3
    simp [CarrotAI.mkBedrockUsage, h1, h2, h3]

/-- Witness for C9 at concrete token counts. -/
theorem C9_witness :
    (CarrotAI.mkOllamaUsage (some 1) (some 2)).totalTokens
      = (CarrotAI.mkOllamaUsage (some 1) (some 2)).inputTokens
        + (CarrotAI.mkOllamaUsage (some 1) (some 2)).outputTokens
    ∧ (CarrotAI.mkBedrockUsage
        (some { inputTokens := some 1, outputTokens := some 2, totalTokens := some 3 })).totalTokens
      = (CarrotAI.mkBedrockUsage
          (some { inputTokens := some 1, outputTokens := some 2, totalTokens := some 3 })).inputTokens
        + (CarrotAI.mkBedrockUsage
            (some { inputTokens := some 1, outputTokens := some 2, totalTokens := some 3 })).outputTokens :=
  ⟨C9_usage_accounting.1 (some 1) (some 2),
   C9_usage_accounting.2 { inputTokens := some 1, outputTokens := some 2, totalTokens := some 3 }
     1 2 rfl rfl rfl⟩

/-- Claim C10: chatStream issues exactly one backend stream invocation per
call, ignoring the retries and fallbackModels fields entirely, and a
failed stream invocation propagates its error directly to the consumer:
(1) the result is unchanged under any retries/fallbackModels values,
(2) the result depends only on the first invocation the backend would
serve (no second invocation is ever consulted), and (3) an invocation
failure becomes the consumer-visible error with no events and no retry. -/
theorem C10_chatStream_no_retry_no_fallback (opts : ChatOptions)
    (bc : String → Nat → BedrockStreamInput) (oc : String → Nat → OllamaStreamInput) :
    (∀ (provider : ProviderType) (r : Option Nat) (fb : Option (List String)),
       CarrotAI.chatStream provider { opts with retries := r, fallbackModels := fb } bc oc
         = CarrotAI.chatStream provider opts bc oc)
    ∧ (∀ (provider : ProviderType) (bc2 : String → Nat → BedrockStreamInput)
         (oc2 : String → Nat → OllamaStreamInput),
         (∀ m, bc2 m 0 = bc m 0) → (∀ m, oc2 m 0 = oc m 0) →
         CarrotAI.chatStream provider opts bc2 oc2 = CarrotAI.chatStream provider opts bc oc)
    ∧ ((oc (CarrotAI.resolveStreamModel .ollama opts.model) 0).ok = false →
         CarrotAI.chatStream .ollama opts bc oc
           = ([], some ("Ollama stream failed: "
               ++ (oc (CarrotAI.resolveStreamModel .ollama opts.model) 0).statusText))) := by
  refine ⟨?_, ?_, ?_⟩
  · intro provider r fb
    cases provider <;> rfl
  · intro provider bc2 oc2 h1 h2
    cases provider
    · simp only [CarrotAI.chatStream]
      rw [h1]
    · simp only [CarrotAI.chatStream]
      rw [h2]
  · intro h
    simp [CarrotAI.chatStream, CarrotAI.invokeOllamaStreamModel, h]

/-- Witness for C10: a request carrying retries = 5 and a fallback model,
against an Ollama stream whose invocation fails, yields the propagated
error with no events. -/
theorem C10_witness :
    CarrotAI.chatStream .ollama
        { model := some "m", retries := some 5, fallbackModels := some ["x"] }
        (fun _ _ => { clientInitialized := true, streamPresent := true, chunks := [], midError := none })
        (fun _ _ => { ok := false, statusText := "bad", lines := [], midError := none })
      = ([], some ("Ollama stream failed: " ++ "bad")) :=
  (C10_chatStream_no_retry_no_fallback
      { model := some "m", retries := some 5, fallbackModels := some ["x"] }
      (fun _ _ => { clientInitialized := true, streamPresent := true, chunks := [], midError := none })
      (fun _ _ => { ok := false, statusText := "bad", lines := [], midError := none })).2.2 rfl

/-- Claim C6: when the model responds with at least one tool call on every
turn, CarrotAgent.run returns the sentinel string as a normal value after
exactly 10 model invocations. -/
theorem C6_max_iterations (chatFn : List Message → ChatResponse)
    (tools : List ToolDefinition) (memory : ConversationHistory) (prompt : String)
    (hal : ∀ msgs, hasToolCalls (chatFn msgs).toolCalls = true) :
    CarrotAgent.run chatFn tools memory prompt = ("Max iterations reached.", 10) := by
  have hloop : ∀ (fuel : Nat) (mem : ConversationHistory),
      CarrotAgent.runLoop chatFn tools fuel mem = ("Max iterations reached.", fuel) := by
    intro fuel
    induction fuel with
    | zero => intro mem; rfl
    | succ f ih =>
      intro mem
      simp [CarrotAgent.runLoop, hal, ih]
  exact hloop 10 _

/-- Witness for C6: a model that always requests the same tool call. -/
theorem C6_witness :
    CarrotAgent.run
        (fun _ => { content := "", role := .assistant, model := "m", usage := ⟨0, 0, 0⟩,
                    toolCalls := some [{ id := "1", name := "t", parameters := "p" }] })
        [] (ConversationHistory.create none) "go"
      = ("Max iterations reached.", 10) :=
  C6_max_iterations _ _ _ _ (fun _ => rfl)

/-- At least one chat invocation happens whenever the agent loop has fuel. -/
theorem runLoop_attempts_pos (chatFn : List Message → ChatResponse)
    (tools : List ToolDefinition) (f : Nat) (mem : ConversationHistory) :
    1 ≤ (CarrotAgent.runLoop chatFn tools (f + 1) mem).2 := by
  simp only [CarrotAgent.runLoop]
  split
  · simp
  · simp

/-- Claim C7: no failure in tool lookup, validation, or execution escapes
the tool-execution step. An unregistered tool name yields an error
ToolResult without invoking anything; a validation failure yields an error
ToolResult and the result does not depend on the tool's execute function
(execute is never invoked); an execute failure is converted to an error
ToolResult; and after a turn whose response carries tool calls the loop
proceeds to another model invocation rather than throwing. -/
theorem C7_tool_errors_contained (tools : List ToolDefinition) (tc : ToolCall) :
    (tools.find? (fun t => t.name == tc.name) = none →
       CarrotAgent.executeToolCall tools tc
         = { toolCallId := tc.id
             content := "Error: Tool \"" ++ tc.name ++ "\" not found."
             isError := true })
    ∧ (∀ (t : ToolDefinition) (msg : String), t.validateParams tc.parameters = .error msg →
         (CarrotAgent.runTool t tc).isError = true
         ∧ ∀ g, CarrotAgent.runTool { t with execute := g } tc = CarrotAgent.runTool t tc)
    ∧ (∀ (t : ToolDefinition) (p msg : String),
         t.validateParams tc.parameters = .ok p → t.execute p = .error msg →
         CarrotAgent.runTool t tc = { toolCallId := tc.id, content := msg, isError := true })
    ∧ (∀ (chatFn : List Message → ChatResponse) (f : Nat) (mem : ConversationHistory),
         hasToolCalls (chatFn mem.messages).toolCalls = true →
         2 ≤ (CarrotAgent.runLoop chatFn tools (f + 2) mem).2) := by
  refine ⟨?_, ?_, ?_, ?_⟩
  · intro h
    simp [CarrotAgent.executeToolCall, h]
  · intro t msg h
    exact ⟨by simp [CarrotAgent.runTool, h], fun g => by simp [CarrotAgent.runTool, h]⟩
  · intro t p msg h1 h2
    simp [CarrotAgent.runTool, h1, h2]
  · intro chatFn f mem h
    simp only [CarrotAgent.runLoop, h, Bool.true_eq_false, if_false]
    exact Nat.succ_le_succ (runLoop_attempts_pos chatFn tools f _)

/-- Witness for C7: an empty registry (unregistered tool), a tool whose
validation fails, a tool whose execution fails, and a loop turn whose
response carries a tool call. -/
theorem C7_witness :
    CarrotAgent.executeToolCall [] { id := "1", name := "foo", parameters := "p" }
      = { toolCallId := "1", content := "Error: Tool \"foo\" not found.", isError := true }
    ∧ (CarrotAgent.runTool
        { name := "foo", description := "", validateParams := fun _ => .error "bad",
          execute := fun p => .ok p }
        { id := "1", name := "foo", parameters := "p" }).isError = true
    ∧ CarrotAgent.runTool
        { name := "foo", description := "", validateParams := fun p => .ok p,
          execute := fun _ => .error "boom" }
        { id := "1", name := "foo", parameters := "p" }
      = { toolCallId := "1", content := "boom", isError := true }
    ∧ 2 ≤ (CarrotAgent.runLoop
        (fun _ => { content := "", role := .assistant, model := "m", usage := ⟨0, 0, 0⟩,
                    toolCalls := some [{ id := "1", name := "foo", parameters := "p" }] })
        [] 2 (ConversationHistory.create none)).2 := by
  obtain ⟨h1, h2, h3, h4⟩ :=
    C7_tool_errors_contained [] { id := "1", name := "foo", parameters := "p" }
  exact ⟨h1 rfl,
    (h2 { name := "foo", description := "", validateParams := fun _ => .error "bad",
          execute := fun p => .ok p } "bad" rfl).1,
    h3 { name := "foo", description := "", validateParams := fun p => .ok p,
         execute := fun _ => .error "boom" } "p" "boom" rfl rfl,
    h4 _ 0 _ rfl⟩

/-- Claim C8: for every stream invocation (Ollama or Bedrock), a backend
stream that completes without a raised error yields an event sequence
ending in exactly one done event (and containing no other done event),
while any raised error — at invocation or mid-stream — aborts the sequence
without ever emitting a done event; concretely, an Ollama stream of 3
content chunks followed by the terminal marker yields exactly 3 content
events, 1 usage event and then the single done event. -/
theorem C8_stream_done_discipline :
    (∀ inp : OllamaStreamInput, inp.ok = true → inp.midError = none →
       ∃ pre, (CarrotAI.invokeOllamaStreamModel inp).1 = pre ++ [StreamEvent.done]
         ∧ doneCount pre = 0)
    ∧ (∀ inp : OllamaStreamInput, (CarrotAI.invokeOllamaStreamModel inp).2.isSome = true →
       doneCount (CarrotAI.invokeOllamaStreamModel inp).1 = 0)
    ∧ (∀ inp : BedrockStreamInput, inp.clientInitialized = true → inp.streamPresent = true →
         inp.midError = none →
       ∃ pre, (CarrotAI.invokeBedrockStreamModel inp).1 = pre ++ [StreamEvent.done]
         ∧ doneCount pre = 0)
    ∧ (∀ inp : BedrockStreamInput, (CarrotAI.invokeBedrockStreamModel inp).2.isSome = true →
       doneCount (CarrotAI.invokeBedrockStreamModel inp).1 = 0)
    ∧ CarrotAI.invokeOllamaStreamModel
        { ok := true, statusText := ""
          lines := [{ content := some "a", done := false, promptEvalCount := none, evalCount := none },
                    { content := some "b", done := false, promptEvalCount := none, evalCount := none },
                    { content := some "c", done := false, promptEvalCount := none, evalCount := none },
                    { content := none, done := true, promptEvalCount := some 1, evalCount := some 2 }]
          midError := none }
      = ([.content "a", .content "b", .content "c",
          .usage { inputTokens := 1, outputTokens := 2, totalTokens := 3 }, .done], none) := by
  refine ⟨?_, ?_, ?_, ?_, rfl⟩
  · intro inp hok hmid
    refine ⟨(inp.lines.map CarrotAI.ollamaLineEvents).flatten, ?_, doneCount_ollama_flatten inp.lines⟩
    simp [CarrotAI.invokeOllamaStreamModel, hok, hmid]
  · intro inp herr
    by_cases hok : inp.ok = false
    · simp [CarrotAI.invokeOllamaStreamModel, hok, doneCount]
    · cases hmid : inp.midError with
      | none =>
        simp [CarrotAI.invokeOllamaStreamModel, hok, hmid] at herr
      | some msg =>
        simp [CarrotAI.invokeOllamaStreamModel, hok, hmid, doneCount_ollama_flatten]
  · intro inp hci hsp hmid
    refine ⟨(inp.chunks.map CarrotAI.bedrockChunkEvents).flatten, ?_,
      doneCount_bedrock_flatten inp.chunks⟩
    simp [CarrotAI.invokeBedrockStreamModel, hci, hsp, hmid]
  · intro inp herr
    by_cases hci : inp.clientInitialized = false
    · simp [CarrotAI.invokeBedrockStreamModel, hci, doneCount]
    · by_cases hsp : inp.streamPresent = false
      · simp [CarrotAI.invokeBedrockStreamModel, hci, hsp, doneCount]
      · cases hmid : inp.midError with
        | none =>
          simp [CarrotAI.invokeBedrockStreamModel, hci, hsp, hmid] at herr
        | some msg =>
          simp [CarrotAI.invokeBedrockStreamModel, hci, hsp, hmid, doneCount_bedrock_flatten]

/-- Witness for C8 at concrete stream traces: a clean empty Ollama stream, a
mid-stream Ollama error, a clean empty Bedrock stream, and a Bedrock
response without a stream. -/
theorem C8_witness :
    (∃ pre, (CarrotAI.invokeOllamaStreamModel
        { ok := true, statusText := "", lines := [], midError := none }).1
          = pre ++ [StreamEvent.done] ∧ doneCount pre = 0)
    ∧ doneCount (CarrotAI.invokeOllamaStreamModel
        { ok := true, statusText := ""
          lines := [{ content := some "a", done := false, promptEvalCount := none, evalCount := none }]
          midError := some "boom" }).1 = 0
    ∧ (∃ pre, (CarrotAI.invokeBedrockStreamModel
        { clientInitialized := true, streamPresent := true, chunks := [], midError := none }).1
          = pre ++ [StreamEvent.done] ∧ doneCount pre = 0)
    ∧ doneCount (CarrotAI.invokeBedrockStreamModel
        { clientInitialized := true, streamPresent := false, chunks := [], midError := none }).1 = 0 :=
  ⟨C8_stream_done_discipline.1 _ rfl rfl,
   C8_stream_done_discipline.2.1 _ rfl,
   C8_stream_done_discipline.2.2.1 _ rfl rfl rfl,
   C8_stream_done_discipline.2.2.2.1 _ rfl⟩

/-- Pruning never changes the cap. -/
theorem ConversationHistory.prune_maxMessages (h : ConversationHistory) :
    (ConversationHistory.prune h).maxMessages = h.maxMessages := by
  by_cases h1 : h.maxMessages < h.messages.length
  · by_cases h2 : (h.messages.filter isSystemMessage).length < h.maxMessages
    · simp [ConversationHistory.prune, h1, h2]
    · simp [ConversationHistory.prune, h1, h2]
  · simp [ConversationHistory.prune, h1]

/-- addMessage never changes the cap. -/
theorem ConversationHistory.addMessage_maxMessages (h : ConversationHistory) (m : Message) :
    (h.addMessage m).maxMessages = h.maxMessages := by
  unfold ConversationHistory.addMessage
  rw [ConversationHistory.prune_maxMessages]

/-- JavaScript `slice(-k)` keeps at most `k` elements when `k` is positive. -/
theorem sliceLast_length_le (k : Nat) (xs : List Message) (hk : ¬ k = 0) :
    (sliceLast k xs).length ≤ k := by
  simp only [sliceLast, if_neg hk, List.length_drop]
  omega

/-- JavaScript `slice(-k)` keeps only elements of the original list. -/
theorem sliceLast_subset (k : Nat) (xs : List Message) :
    ∀ a ∈ sliceLast k xs, a ∈ xs := by
  intro a ha
  simp only [sliceLast] at ha
  split at ha
  · exact ha
  · exact List.mem_of_mem_drop ha

/-- No system message hides among the retained suffix of the non-system
messages. -/
theorem filter_system_sliceLast_other (k : Nat) (xs : List Message) :
    (sliceLast k (xs.filter (fun m => !isSystemMessage m))).filter isSystemMessage = [] := by
  rw [List.filter_eq_nil_iff]
  intro a ha
  have hmem := sliceLast_subset _ _ a ha
  have hprop := (List.mem_filter.mp hmem).2
  simp only [Bool.not_eq_true'] at hprop
  simp [hprop]

/-- Filtering the system messages again changes nothing. -/
theorem filter_system_self (xs : List Message) :
    (xs.filter isSystemMessage).filter isSystemMessage = xs.filter isSystemMessage := by
  rw [List.filter_filter]
  simp

/-- When pruning fires and the cap is positive, the pruned store fits the
cap. -/
theorem prune_length_le (h : ConversationHistory) (hN : 1 ≤ h.maxMessages)
    (hgt : h.maxMessages < h.messages.length) :
    (ConversationHistory.prune h).messages.length ≤ h.maxMessages := by
  by_cases h2 : (h.messages.filter isSystemMessage).length < h.maxMessages
  · simp only [ConversationHistory.prune]
    rw [if_pos hgt, if_pos h2]
    simp only [List.length_append]
    have hs := sliceLast_length_le (h.maxMessages - (h.messages.filter isSystemMessage).length)
        (h.messages.filter (fun m => !isSystemMessage m)) (by omega)
    omega
  · simp only [ConversationHistory.prune]
    rw [if_pos hgt, if_neg h2]
    exact sliceLast_length_le _ _ (by omega)

/-- When the stored system messages fit the cap, pruning preserves the
filtered system-message sequence exactly. -/
theorem prune_filter_system (h : ConversationHistory) (hN : 1 ≤ h.maxMessages)
    (hcnt : (h.messages.filter isSystemMessage).length ≤ h.maxMessages) :
    (ConversationHistory.prune h).messages.filter isSystemMessage
      = h.messages.filter isSystemMessage := by
  by_cases hgt : h.maxMessages < h.messages.length
  · by_cases h2 : (h.messages.filter isSystemMessage).length < h.maxMessages
    · simp only [ConversationHistory.prune]
      rw [if_pos hgt, if_pos h2]
      rw [List.filter_append, filter_system_self, filter_system_sliceLast_other,
        List.append_nil]
    · have heq : (h.messages.filter isSystemMessage).length = h.maxMessages := by omega
      simp only [ConversationHistory.prune]
      rw [if_pos hgt, if_neg h2]
      simp only [sliceLast, if_neg (by omega : ¬ h.maxMessages = 0)]
      rw [heq, Nat.sub_self, List.drop_zero]
      exact filter_system_self h.messages
  · simp only [ConversationHistory.prune]
    rw [if_neg hgt]

/-- With a positive cap, the store fits the cap after every addMessage. -/
theorem addMessage_length_le (h : ConversationHistory) (m : Message)
    (hN : 1 ≤ h.maxMessages) :
    (h.addMessage m).messages.length ≤ h.maxMessages := by
  show (ConversationHistory.prune ⟨h.messages ++ [m], h.maxMessages⟩).messages.length
      ≤ h.maxMessages
  by_cases hgt : h.maxMessages < (h.messages ++ [m]).length
  · exact prune_length_le ⟨h.messages ++ [m], h.maxMessages⟩ hN hgt
  · have hnp : ConversationHistory.prune ⟨h.messages ++ [m], h.maxMessages⟩
        = ⟨h.messages ++ [m], h.maxMessages⟩ := by
      simp only [ConversationHistory.prune]
      rw [if_neg hgt]
    rw [hnp]
    exact Nat.not_lt.mp hgt

/-- addMessage preserves the filtered system-message sequence of the pushed
store, as long as the system messages fit the cap. -/
theorem addMessage_filter_system (h : ConversationHistory) (m : Message)
    (hN : 1 ≤ h.maxMessages)
    (hcnt : ((h.messages ++ [m]).filter isSystemMessage).length ≤ h.maxMessages) :
    (h.addMessage m).messages.filter isSystemMessage
      = (h.messages ++ [m]).filter isSystemMessage := by
  show (ConversationHistory.prune ⟨h.messages ++ [m], h.maxMessages⟩).messages.filter
        isSystemMessage
      = (h.messages ++ [m]).filter isSystemMessage
  exact prune_filter_system ⟨h.messages ++ [m], h.maxMessages⟩ hN hcnt

/-- The filtered length of a pushed store, split into the old filtered
length plus the contribution of the new message. -/
theorem filter_system_push_length (xs : List Message) (m : Message) :
    ((xs ++ [m]).filter isSystemMessage).length
      = (xs.filter isSystemMessage).length + (if isSystemMessage m then 1 else 0) := by
  by_cases hm : isSystemMessage m <;> simp [List.filter_append, hm]

/-- The filtered length of a cons, split into the head contribution plus
the tail filtered length. -/
theorem filter_system_cons_length (m : Message) (rest : List Message) :
    ((m :: rest).filter isSystemMessage).length
      = (if isSystemMessage m then 1 else 0) + (rest.filter isSystemMessage).length := by
  by_cases hm : isSystemMessage m
  · simp [List.filter_cons, hm]
    omega
  · simp [List.filter_cons, hm]

/-- Folding addMessage over any appended sequence keeps the cap, keeps the
store within a positive cap, and — while the system messages seen so far
fit the cap — preserves every system message in order. -/
theorem foldl_addMessage_invariant :
    ∀ (added : List Message) (h : ConversationHistory),
      1 ≤ h.maxMessages → h.messages.length ≤ h.maxMessages →
      ((added.foldl ConversationHistory.addMessage h).maxMessages = h.maxMessages
       ∧ (added.foldl ConversationHistory.addMessage h).messages.length ≤ h.maxMessages
       ∧ ((h.messages.filter isSystemMessage).length
            + (added.filter isSystemMessage).length ≤ h.maxMessages →
          (added.foldl ConversationHistory.addMessage h).messages.filter isSystemMessage
            = h.messages.filter isSystemMessage ++ added.filter isSystemMessage)) := by
  intro added
  induction added with
  | nil =>
    intro h hN hlen
    exact ⟨rfl, hlen, fun _ => by simp⟩
  | cons m rest ih =>
    intro h hN hlen
    have hmax' : (h.addMessage m).maxMessages = h.maxMessages :=
      ConversationHistory.addMessage_maxMessages h m
    have hN' : 1 ≤ (h.addMessage m).maxMessages := by rw [hmax']; exact hN
    have hlen' : (h.addMessage m).messages.length ≤ (h.addMessage m).maxMessages := by
      rw [hmax']
      exact addMessage_length_le h m hN
    obtain ⟨ih1, ih2, ih3⟩ := ih (h.addMessage m) hN' hlen'
    rw [hmax'] at ih1 ih2
    refine ⟨?_, ?_, ?_⟩
    · rw [List.foldl_cons]
      exact ih1
    · rw [List.foldl_cons]
      exact ih2
    · intro hcnt
      rw [filter_system_cons_length] at hcnt
      have hcnt' : ((h.messages ++ [m]).filter isSystemMessage).length ≤ h.maxMessages := by
        rw [filter_system_push_length]
        omega
      have hstep := addMessage_filter_system h m hN hcnt'
      have hrest : ((h.addMessage m).messages.filter isSystemMessage).length
          + (rest.filter isSystemMessage).length ≤ (h.addMessage m).maxMessages := by
        rw [hmax', hstep, filter_system_push_length]
        omega
      have := ih3 hrest
      rw [List.foldl_cons, this, hstep]
      rw [List.filter_append, List.append_assoc]
      congr 1
      by_cases hm : isSystemMessage m <;> simp [List.filter_cons, hm]

/-- Claim C4, amended to positive caps: for every ConversationHistory
constructed with maxMessages = N where N ≥ 1 and every sequence of
addMessage calls, the stored list has length at most N after each call,
and every system-role message added so far is still present (in order) as
long as the number of system-role messages added is at most N. For N = 0
the constructor falls back to the default cap 100 (`maxMessages || 100`),
so the bound does not hold there. -/
theorem C4_bounded_history (N : Nat) (hN : 1 ≤ N) (added : List Message) :
    ((added.foldl ConversationHistory.addMessage (ConversationHistory.create (some N))).messages.length ≤ N)
    ∧ ((added.filter isSystemMessage).length ≤ N →
       (added.foldl ConversationHistory.addMessage
          (ConversationHistory.create (some N))).messages.filter isSystemMessage
         = added.filter isSystemMessage) := by
  have hcmax : (ConversationHistory.create (some N)).maxMessages = N := by
    simp only [ConversationHistory.create]
    rw [if_neg (by omega : ¬ N = 0)]
  obtain ⟨h1, h2, h3⟩ := foldl_addMessage_invariant added (ConversationHistory.create (some N))
      (by rw [hcmax]; exact hN) (by rw [hcmax]; simp [ConversationHistory.create])
  rw [hcmax] at h2 h3
  refine ⟨h2, fun hcnt => ?_⟩
  have hempty : (ConversationHistory.create (some N)).messages.filter isSystemMessage = [] := rfl
  have := h3 (by rw [hempty]; simpa using hcnt)
  rw [hempty] at this
  simpa using this

/-- Witness for C4 at N = 3 with the system, user, assistant, user
sequence. -/
theorem C4_witness :
    (([{ role := MessageRole.system, content := MessageContent.text "s" },
       { role := MessageRole.user, content := MessageContent.text "u1" },
       { role := MessageRole.assistant, content := MessageContent.text "a" },
       { role := MessageRole.user, content := MessageContent.text "u2" }] :
        List Message).foldl ConversationHistory.addMessage
        (ConversationHistory.create (some 3))).messages.length ≤ 3
    ∧ (([{ role := MessageRole.system, content := MessageContent.text "s" },
        { role := MessageRole.user, content := MessageContent.text "u1" },
        { role := MessageRole.assistant, content := MessageContent.text "a" },
        { role := MessageRole.user, content := MessageContent.text "u2" }] :
         List Message).foldl ConversationHistory.addMessage
         (ConversationHistory.create (some 3))).messages.filter isSystemMessage
      = ([{ role := MessageRole.system, content := MessageContent.text "s" },
         { role := MessageRole.user, content := MessageContent.text "u1" },
         { role := MessageRole.assistant, content := MessageContent.text "a" },
         { role := MessageRole.user, content := MessageContent.text "u2" }] :
          List Message).filter isSystemMessage :=
  ⟨(C4_bounded_history 3 (by decide) _).1,
   (C4_bounded_history 3 (by decide) _).2 (by decide)⟩
